import Mathlib

/-!
Verification development for the reliable-filereader repository
(src/index.js). The single exported function wraps a FileReader
invocation in a Promise with a timeout. We build a shallow embedding of
the JavaScript code as frozen in this repository: values are modelled
by an inductive JS-value type, the Promise by an explicit settlement
state whose resolve and reject are no-ops once settled (ECMAScript
semantics), and the default timer by a pending/fired/cancelled state.

A decisive fact about the frozen source: the identifier fileReader is
used at lines 66, 70, 71 and 72 but never declared anywhere in the
repository (no `const fileReader = new FileReader()` exists). The file
is an ES module, so reading the undeclared identifier throws a
ReferenceError. Consequently a call with valid arguments proceeds as
follows: the validations pass, line 61 starts the timer, and line 70
(`fileReader.onload = ...`) throws a ReferenceError; the Promise
constructor catches it and rejects the returned promise with it. The
onload/onerror handlers are never attached, the read is never started,
onComplete, stopWaitingForTimeout and onFinishAfterTimeout are never
invoked, and the never-cancelled timer later fires: its callback sets
hasTimedOut, calls reject (a no-op on the settled promise) and then
evaluates fileReader for the abort call, which throws a second,
uncaught ReferenceError into the host. The state machine below embeds
exactly this behaviour: from the post-executor state the only
deliverable callback is the timer firing.
-/

namespace ReliableFR

/-- Model of a JavaScript value, with just enough structure for the
code under verification: typeof checks, instanceof Blob, and string
interpolation. Numbers are modelled by Int (the code never does
arithmetic on them, it only checks typeof and interpolates them into
strings). -/
inductive JSValue where
  | undef
  | null
  | bool (b : Bool)
  | num (n : Int)
  | str (s : String)
  | blobObj (id : Nat)
  | obj (id : Nat)
  | fn (id : Nat)
  | err (msg : String)
deriving DecidableEq

/-- Embedding of the JS check `x instanceof Blob` (File extends Blob,
so a File handle is also a blobObj). -/
def JSValue.instanceOfBlob : JSValue → Bool
  | .blobObj _ => true
  | _ => false

/-- Embedding of the JS check `typeof x === "number"`. -/
def JSValue.typeofNumber : JSValue → Bool
  | .num _ => true
  | _ => false

/-- Embedding of the JS check `typeof x === "function"`. -/
def JSValue.typeofFunction : JSValue → Bool
  | .fn _ => true
  | _ => false

/-- String interpolation of a JS value, as in the template literals of
the validation error messages (a simplified ToString: enough to make
the messages concrete and distinct). -/
def jsToString : JSValue → String
  | .undef => "undefined"
  | .null => "null"
  | .bool b => if b then "true" else "false"
  | .num n => toString n
  | .str s => s
  | .blobObj _ => "[object Blob]"
  | .obj _ => "[object Object]"
  | .fn _ => "function"
  | .err m => "Error: " ++ m

/-- Property names p of FileReader for which
`typeof FileReader.prototype[p] === "function"` holds: the four read
methods and abort (own properties), plus the function-valued properties
inherited through the prototype chain from EventTarget.prototype and
Object.prototype (bracket lookup walks the chain). -/
def isFileReaderMethod (m : String) : Bool :=
  m ∈ ["readAsArrayBuffer", "readAsBinaryString", "readAsDataURL", "readAsText",
       "abort", "addEventListener", "removeEventListener", "dispatchEvent",
       "constructor", "hasOwnProperty", "isPrototypeOf", "propertyIsEnumerable",
       "toLocaleString", "toString", "valueOf"]

/-- State of a JS Promise as observable by its consumer. -/
inductive PromiseState where
  | pending
  | resolved (v : JSValue)
  | rejected (e : JSValue)
deriving DecidableEq

/-- ECMAScript resolve: settles a pending promise, no-op afterwards.
This is the resolve function handed to the executor; in the frozen
source its only call site, inside onComplete, is unreachable. -/
def PromiseState.resolveWith (p : PromiseState) (v : JSValue) : PromiseState :=
  match p with
  | .pending => .resolved v
  | q => q

/-- ECMAScript reject: settles a pending promise, no-op afterwards. -/
def PromiseState.rejectWith (p : PromiseState) (e : JSValue) : PromiseState :=
  match p with
  | .pending => .rejected e
  | q => q

/-- State of the timer created by the default timeoutFunction
(simpleTimeout wrapping setTimeout): still pending, already fired, or
cleared by clearTimeout. A fired or cleared timer never fires. -/
inductive TimerState where
  | pending
  | fired
  | cancelled
deriving DecidableEq

/-- The validated per-call data the closures capture: the FileReader
method name and the timeoutMs that was accepted by validation. -/
structure Request where
  method : String
  timeoutMs : Int
deriving DecidableEq

/-- The message of the Error built in the timeout callback:
`FileReader ${method} timed out after ${timeoutMs}ms`. -/
def timeoutMessage (method : String) (timeoutMs : Int) : String :=
  "FileReader " ++ method ++ " timed out after " ++ toString timeoutMs ++ "ms"

/-- The exception thrown whenever the code evaluates the identifier
fileReader, which src/index.js uses but never declares. -/
def fileReaderRefError : JSValue :=
  JSValue.err "ReferenceError: fileReader is not defined"

/-- Observable state of one reliableFileReader call after the executor
has run: the hasTimedOut flag, the Promise settlement, the timer state,
and histories of the calls the code makes outward: invocations of
stopWaitingForTimeout, of fileReader.abort, of onFinishAfterTimeout
(with its {result, error} payload), and exceptions that escaped a
callback into the host (uncaught). -/
structure RunState where
  hasTimedOut : Bool
  promise : PromiseState
  timer : TimerState
  cancelCalls : Nat
  abortCalls : Nat
  lateCalls : List (JSValue × JSValue)
  uncaught : List JSValue
deriving DecidableEq

/-- State of a call with valid arguments right after the executor ran:
the validations passed, line 60 set hasTimedOut to false, line 61
started the timer, and then line 70 read the never-declared identifier
fileReader and threw a ReferenceError, which the Promise constructor
caught and turned into the rejection of the returned promise. The
onload/onerror handlers were never attached and the read was never
started, so no completion notification and no late-finish call can
ever occur; the cancellation handle was never invoked, so the timer is
still pending. -/
def execState : RunState :=
  { hasTimedOut := false
    promise := PromiseState.rejected fileReaderRefError
    timer := TimerState.pending
    cancelCalls := 0
    abortCalls := 0
    lateCalls := []
    uncaught := [] }

/-- The timer callback firing, the only callback the host can ever
deliver for this call (no other handler was registered). If the timer
is still pending, the callback of line 61 runs: it sets hasTimedOut to
true, calls reject with the timeout Error — a no-op, because the
promise is already rejected with the ReferenceError of the executor —
and then evaluates fileReader for the abort call, which throws a
ReferenceError that escapes the callback into the host; no abort is
ever attempted and the cancellation handle is never invoked. A fired
timer does not fire again (setTimeout schedules once). -/
def fireTimeout (req : Request) (s : RunState) : RunState :=
  if s.timer = TimerState.pending then
    { s with
      hasTimedOut := true
      promise := s.promise.rejectWith
        (JSValue.err (timeoutMessage req.method req.timeoutMs))
      timer := TimerState.fired
      uncaught := s.uncaught ++ [fileReaderRefError] }
  else s

/-- Observable state of a call with valid arguments after the host has
delivered the timer callback the given number of times. ticks = 0 is
the state at the moment the call returns; any positive number of ticks
is the state after the timeout elapsed (deliveries beyond the first
are no-ops of the fired timer). -/
def runValid (req : Request) (ticks : Nat) : RunState :=
  match ticks with
  | 0 => execState
  | t + 1 => fireTimeout req (runValid req t)

/-! Validation and call entry. -/

/-- The raw arguments of one reliableFileReader call after default
parameters were applied: method (a property name), the blob argument,
and the three option fields, each an arbitrary JS value. With no
options object these default to num 30000 for timeoutMs and functions
for the two callbacks. -/
structure RawArgs where
  method : String
  blob : JSValue
  timeoutMs : JSValue
  onFinishAfterTimeout : JSValue
  timeoutFunction : JSValue
deriving DecidableEq

/-- Embedding of the validation sequence at the top of the Promise
executor; returns the message of the first Error thrown, or none when
every check passes. The validations run before any line that mentions
the broken fileReader identifier. -/
def validate (a : RawArgs) : Option String :=
  if ¬ a.blob.instanceOfBlob then
    some ("Invalid blob passed to FileReader: " ++ jsToString a.blob)
  else if ¬ isFileReaderMethod a.method then
    some ("Invalid method passed to FileReader: " ++ a.method)
  else if ¬ a.timeoutMs.typeofNumber then
    some ("Invalid timeoutMs passed to FileReader: " ++ jsToString a.timeoutMs)
  else if ¬ a.onFinishAfterTimeout.typeofFunction then
    some ("Invalid onFinishAfterTimeout passed to FileReader: " ++ jsToString a.onFinishAfterTimeout)
  else if ¬ a.timeoutFunction.typeofFunction then
    some ("Invalid timeoutFunction passed to FileReader: " ++ jsToString a.timeoutFunction)
  else
    none

/-- What a call of reliableFileReader hands back to its caller:
either a synchronous exception escaping to the caller, or a Promise.
The promise constructor carries the run state governing the returned
promise (for valid arguments, that state already holds a rejection);
rejectedPromise is the case where the executor threw during validation,
before the timer was started, so no run state exists at all. -/
inductive CallResult where
  | thrown (msg : String)
  | promise (s : RunState)
  | rejectedPromise (msg : String)
deriving DecidableEq

/-- True only for a synchronous exception reaching the caller. -/
def CallResult.isSyncThrow : CallResult → Bool
  | .thrown _ => true
  | _ => false

/-- Embedding of the exported function body, `return new Promise(executor)`.
Per ECMAScript, the Promise constructor invokes the executor
synchronously and catches any exception it throws, turning it into a
rejection of the new promise; so a validation failure yields an already
rejected promise and the caller never sees a synchronous throw. When
validation passes, the executor starts the timer and then itself throws
the ReferenceError of the never-declared fileReader identifier, so the
call returns the promise governed by execState: already rejected with
that ReferenceError, with the timer pending and no handler attached. -/
def reliableFileReader (a : RawArgs) : CallResult :=
  match validate a with
  | some msg => .rejectedPromise msg
  | none => .promise execState

/-! Model of the default timeoutFunction, simpleTimeout, on its own:
`setTimeout(callback, timeoutMs)` then return stopWaiting, which calls
`clearTimeout(timeoutId)`. -/

/-- Host view of one setTimeout timer: whether clearTimeout has been
called on its id, and how many times its callback has run. -/
structure TimerWorld where
  cleared : Bool
  fires : Nat
deriving DecidableEq

/-- Host primitive clearTimeout on the id held by the closure. -/
def clearTimeout (w : TimerWorld) : TimerWorld :=
  { w with cleared := true }

/-- The stopWaiting closure returned by simpleTimeout: it just calls
clearTimeout(timeoutId). -/
def stopWaiting (w : TimerWorld) : TimerWorld :=
  clearTimeout w

/-- Host scheduler reaching the timer deadline: the callback runs once
if the timer was neither cleared nor already fired. -/
def fireTimer (w : TimerWorld) : TimerWorld :=
  if w.cleared ∨ w.fires ≠ 0 then w else { w with fires := w.fires + 1 }

/-! Helper lemmas about the state machine. -/

/-- Reject on an already settled promise is a no-op. -/
theorem rejectWith_of_settled (p : PromiseState) (e : JSValue)
    (h : p ≠ PromiseState.pending) : p.rejectWith e = p := by
  cases p <;> simp_all [PromiseState.rejectWith]

/-- A validation message built from a literal starting with Invalid
splits at that word. -/
theorem invalid_msg_split (p q x : String) (h : p = "Invalid " ++ q) :
    p ++ x = "Invalid " ++ (q ++ x) := by
  rw [h, String.append_assoc]

/-- A value passing the typeof number check is a num. -/
theorem typeofNumber_num (v : JSValue) (h : v.typeofNumber = true) :
    ∃ k, v = JSValue.num k := by
  cases v <;> first | exact ⟨_, rfl⟩ | simp_all [JSValue.typeofNumber]

/-- In every reachable state of a call with valid arguments the
promise is rejected with the ReferenceError of the executor: it was
rejected with it before the call returned, and the later reject of the
timeout callback is a no-op on the settled promise. -/
theorem runValid_promise (req : Request) (ticks : Nat) :
    (runValid req ticks).promise = PromiseState.rejected fileReaderRefError := by
  induction ticks with
  | zero => rfl
  | succ t ih =>
    show (fireTimeout req (runValid req t)).promise = _
    unfold fireTimeout
    split
    · simp [ih, PromiseState.rejectWith]
    · exact ih

/-- In every reachable state of a call with valid arguments the
late-finish call history is empty: onFinishAfterTimeout is never
invoked, because the completion handlers that would funnel an outcome
into onComplete are never attached. -/
theorem runValid_lateCalls (req : Request) (ticks : Nat) :
    (runValid req ticks).lateCalls = [] := by
  induction ticks with
  | zero => rfl
  | succ t ih =>
    show (fireTimeout req (runValid req t)).lateCalls = []
    unfold fireTimeout
    split
    · simpa using ih
    · exact ih

/-- In every reachable state of a call with valid arguments the
cancellation handle has been invoked zero times: its only call site,
inside onComplete, is unreachable, and the timeout callback never
touches it. -/
theorem runValid_cancelCalls (req : Request) (ticks : Nat) :
    (runValid req ticks).cancelCalls = 0 := by
  induction ticks with
  | zero => rfl
  | succ t ih =>
    show (fireTimeout req (runValid req t)).cancelCalls = 0
    unfold fireTimeout
    split
    · simpa using ih
    · exact ih

/-- In every reachable state of a call with valid arguments no abort
was ever attempted: evaluating fileReader in the timeout callback
throws before any abort could be performed. -/
theorem runValid_abortCalls (req : Request) (ticks : Nat) :
    (runValid req ticks).abortCalls = 0 := by
  induction ticks with
  | zero => rfl
  | succ t ih =>
    show (fireTimeout req (runValid req t)).abortCalls = 0
    unfold fireTimeout
    split
    · simpa using ih
    · exact ih

/-! Claims. -/

/-- Claim C1 is violated by the frozen code (code bug): with valid
arguments the promise settles exactly once — rejected with the
ReferenceError of the never-declared fileReader, the same value in
every reachable state — but after that settlement the dangling,
never-cancelled timer still fires and throws an uncaught
ReferenceError into the host: an observable effect after settlement
that is not a late-finish notification (the late-finish history stays
empty). -/
theorem claim1_effect_after_settlement :
    (∀ ticks, (runValid ⟨"readAsDataURL", 10000⟩ ticks).promise
      = PromiseState.rejected fileReaderRefError) ∧
    (runValid ⟨"readAsDataURL", 10000⟩ 1).uncaught = [fileReaderRefError] ∧
    (runValid ⟨"readAsDataURL", 10000⟩ 1).lateCalls = [] :=
  ⟨fun ticks => runValid_promise ⟨"readAsDataURL", 10000⟩ ticks, by decide, by decide⟩

/-- Claim C2 counterexample: calling reliableFileReader with an invalid
blob (the number 5) does not throw synchronously to the caller: the
executor throw is caught by the Promise constructor, so the caller
receives an already rejected promise instead. -/
theorem claim2_counterexample :
    reliableFileReader
        ⟨"readAsDataURL", JSValue.num 5, JSValue.num 30000, JSValue.fn 0, JSValue.fn 1⟩
      = CallResult.rejectedPromise "Invalid blob passed to FileReader: 5" ∧
    (reliableFileReader
        ⟨"readAsDataURL", JSValue.num 5, JSValue.num 30000, JSValue.fn 0,
          JSValue.fn 1⟩).isSyncThrow = false := by
  decide

/-- Claim C2 amended: for every invalid input (non-Blob source,
unsupported method name, non-numeric timeoutMs, non-callable
onFinishAfterTimeout, non-callable timeoutFunction) the call returns an
already rejected promise whose descriptive message starts with the word
Invalid; the rejection is produced before any timer starts and before
the read begins (no run state is created at all), but it reaches the
caller as a promise rejection, not as a synchronous throw. -/
theorem claim2_invalid_input_rejected (a : RawArgs)
    (h : a.blob.instanceOfBlob = false ∨ isFileReaderMethod a.method = false ∨
      a.timeoutMs.typeofNumber = false ∨ a.onFinishAfterTimeout.typeofFunction = false ∨
      a.timeoutFunction.typeofFunction = false) :
    ∃ msg rest, reliableFileReader a = CallResult.rejectedPromise msg ∧
      msg = "Invalid " ++ rest ∧ (reliableFileReader a).isSyncThrow = false := by
  by_cases h1 : a.blob.instanceOfBlob = true
  · by_cases h2 : isFileReaderMethod a.method = true
    · by_cases h3 : a.timeoutMs.typeofNumber = true
      · by_cases h4 : a.onFinishAfterTimeout.typeofFunction = true
        · by_cases h5 : a.timeoutFunction.typeofFunction = true
          · simp [h1, h2, h3, h4, h5] at h
          · refine ⟨"Invalid timeoutFunction passed to FileReader: "
                ++ jsToString a.timeoutFunction,
              "timeoutFunction passed to FileReader: " ++ jsToString a.timeoutFunction,
              ?_, invalid_msg_split _ _ _ (by decide), ?_⟩ <;>
              simp [reliableFileReader, validate, h1, h2, h3, h4, h5,
                CallResult.isSyncThrow]
        · refine ⟨"Invalid onFinishAfterTimeout passed to FileReader: "
              ++ jsToString a.onFinishAfterTimeout,
            "onFinishAfterTimeout passed to FileReader: "
              ++ jsToString a.onFinishAfterTimeout,
            ?_, invalid_msg_split _ _ _ (by decide), ?_⟩ <;>
            simp [reliableFileReader, validate, h1, h2, h3, h4, CallResult.isSyncThrow]
      · refine ⟨"Invalid timeoutMs passed to FileReader: " ++ jsToString a.timeoutMs,
          "timeoutMs passed to FileReader: " ++ jsToString a.timeoutMs,
          ?_, invalid_msg_split _ _ _ (by decide), ?_⟩ <;>
          simp [reliableFileReader, validate, h1, h2, h3, CallResult.isSyncThrow]
    · refine ⟨"Invalid method passed to FileReader: " ++ a.method,
        "method passed to FileReader: " ++ a.method,
        ?_, invalid_msg_split _ _ _ (by decide), ?_⟩ <;>
        simp [reliableFileReader, validate, h1, h2, CallResult.isSyncThrow]
  · refine ⟨"Invalid blob passed to FileReader: " ++ jsToString a.blob,
      "blob passed to FileReader: " ++ jsToString a.blob,
      ?_, invalid_msg_split _ _ _ (by decide), ?_⟩ <;>
      simp [reliableFileReader, validate, h1, CallResult.isSyncThrow]

/-- Witness for claim C2 (amended) at a concrete call: an unsupported
method name yields a rejected promise with an Invalid message. -/
theorem claim2_witness :
    ((JSValue.blobObj 0).instanceOfBlob = false ∨ isFileReaderMethod "badMethod" = false ∨
      (JSValue.num 30000).typeofNumber = false ∨ (JSValue.fn 0).typeofFunction = false ∨
      (JSValue.fn 1).typeofFunction = false) ∧
    ∃ msg rest,
      reliableFileReader
          ⟨"badMethod", JSValue.blobObj 0, JSValue.num 30000, JSValue.fn 0, JSValue.fn 1⟩
        = CallResult.rejectedPromise msg ∧
      msg = "Invalid " ++ rest ∧
      (reliableFileReader
          ⟨"badMethod", JSValue.blobObj 0, JSValue.num 30000, JSValue.fn 0,
            JSValue.fn 1⟩).isSyncThrow = false :=
  ⟨by decide,
    claim2_invalid_input_rejected
      ⟨"badMethod", JSValue.blobObj 0, JSValue.num 30000, JSValue.fn 0, JSValue.fn 1⟩
      (by decide)⟩

/-- Claim C3 is violated by the frozen code (code bug): when the
timeout elapses on a call with valid arguments the callback does set
hasTimedOut, but the async result is not rejected with the timeout
message — it is already rejected with the ReferenceError of the
executor, and reject on a settled promise is a no-op — and no abort is
attempted: evaluating fileReader for the abort call throws a
ReferenceError that escapes into the host instead. -/
theorem claim3_no_timeout_rejection :
    (runValid ⟨"readAsDataURL", 10000⟩ 1).hasTimedOut = true ∧
    (runValid ⟨"readAsDataURL", 10000⟩ 1).promise
      = PromiseState.rejected fileReaderRefError ∧
    (runValid ⟨"readAsDataURL", 10000⟩ 1).promise
      ≠ PromiseState.rejected (JSValue.err (timeoutMessage "readAsDataURL" 10000)) ∧
    (runValid ⟨"readAsDataURL", 10000⟩ 1).abortCalls = 0 ∧
    (runValid ⟨"readAsDataURL", 10000⟩ 1).uncaught = [fileReaderRefError] := by
  decide

/-- Claim C4 is violated by the frozen code (code bug): a call with
valid arguments never attaches onload or onerror and never starts the
read — the executor throws the ReferenceError before those lines run —
so no completion notification can ever arrive; the returned promise is
already rejected with the ReferenceError, never resolved with a read
result, and the never-invoked cancellation handle leaves the timer
pending. -/
theorem claim4_no_completion_possible :
    reliableFileReader ⟨"readAsDataURL", JSValue.blobObj 0, JSValue.num 10000,
        JSValue.fn 0, JSValue.fn 1⟩ = CallResult.promise execState ∧
    execState.promise = PromiseState.rejected fileReaderRefError ∧
    execState.timer = TimerState.pending ∧
    execState.cancelCalls = 0 := by
  decide

/-- Claim C5 is violated by the frozen code (code bug):
onFinishAfterTimeout is never invoked with any payload — the completion
handlers that would funnel a late outcome into it are never attached —
so after the timeout elapses, and at every other reachable point of any
call with valid arguments, the late-finish call history is empty rather
than containing one {result} or {error} payload. -/
theorem claim5_no_late_finish (req : Request) (ticks : Nat) :
    (runValid req ticks).lateCalls = [] :=
  runValid_lateCalls req ticks

/-- Claim C6: the cancellation handle returned by the timeout strategy
is invoked only on the non-timeout path and never more than once, for
every request and every possible behaviour of the underlying primitive.
In the frozen code this holds because the handle is never invoked at
all: its only call site, inside onComplete, is unreachable (neither
completion handler is ever attached, so the primitive can deliver no
signal), and the timeout callback never touches it; on every reachable
state the invocation count is zero, hence at most one. -/
theorem claim6_cancel_never_invoked (req : Request) (ticks : Nat) :
    (runValid req ticks).cancelCalls = 0 ∧ (runValid req ticks).cancelCalls ≤ 1 := by
  refine ⟨runValid_cancelCalls req ticks, ?_⟩
  rw [runValid_cancelCalls req ticks]
  omega

/-- Claim C7 is violated by the frozen code (code bug): its premise
never arises — no timeout rejection is ever delivered to the caller,
because the promise is already rejected with the ReferenceError of the
executor when the timer fires — and the failing abort attempt
(evaluating fileReader throws) is not swallowed by the timeout
callback: no abort is performed and the exception escapes as an
uncaught host exception. -/
theorem claim7_no_abort_swallowing :
    (runValid ⟨"readAsDataURL", 10000⟩ 1).promise
      ≠ PromiseState.rejected (JSValue.err (timeoutMessage "readAsDataURL" 10000)) ∧
    (runValid ⟨"readAsDataURL", 10000⟩ 1).abortCalls = 0 ∧
    (runValid ⟨"readAsDataURL", 10000⟩ 1).uncaught = [fileReaderRefError] := by
  decide

/-- Claim C8 counterexample: timeoutMs = -5 is a number that is not
positive, yet the request passes validation (validate returns none):
the code checks only typeof number and never positivity. -/
theorem claim8_counterexample :
    validate ⟨"readAsDataURL", JSValue.blobObj 0, JSValue.num (-5), JSValue.fn 0,
        JSValue.fn 1⟩ = none ∧
    ¬ (0 : Int) < -5 := by
  decide

/-- Claim C8 amended: every request that passes input validation has a
numeric timeoutMs, but validation does not require positivity: its
outcome is identical for any two numeric timeoutMs values, so zero and
negative numbers pass validation whenever any number would. -/
theorem claim8_numeric_only (a : RawArgs) (n m : Int) :
    (validate a = none → ∃ k, a.timeoutMs = JSValue.num k) ∧
    validate { a with timeoutMs := JSValue.num n }
      = validate { a with timeoutMs := JSValue.num m } := by
  constructor
  · intro h
    by_cases h3 : a.timeoutMs.typeofNumber = true
    · exact typeofNumber_num _ h3
    · by_cases h1 : a.blob.instanceOfBlob = true <;>
        by_cases h2 : isFileReaderMethod a.method = true <;>
        simp [validate, h1, h2, h3] at h
  · simp [validate, JSValue.typeofNumber]

/-- Witness for claim C8 (amended) at a concrete request: a fully valid
request has a numeric timeoutMs, and replacing it by -7 or 42 validates
identically. -/
theorem claim8_witness :
    validate ⟨"readAsDataURL", JSValue.blobObj 0, JSValue.num 42, JSValue.fn 0,
        JSValue.fn 1⟩ = none ∧
    (∃ k, (JSValue.num 42) = JSValue.num k) ∧
    validate ⟨"readAsDataURL", JSValue.blobObj 0, JSValue.num (-7), JSValue.fn 0,
        JSValue.fn 1⟩
      = validate ⟨"readAsDataURL", JSValue.blobObj 0, JSValue.num 42, JSValue.fn 0,
        JSValue.fn 1⟩ :=
  ⟨by decide,
    (claim8_numeric_only
      ⟨"readAsDataURL", JSValue.blobObj 0, JSValue.num 42, JSValue.fn 0, JSValue.fn 1⟩
      (-7) 42).1 (by decide),
    (claim8_numeric_only
      ⟨"readAsDataURL", JSValue.blobObj 0, JSValue.num 42, JSValue.fn 0, JSValue.fn 1⟩
      (-7) 42).2⟩

/-- Claim C9: the stopWaiting cancellation closure returned by
simpleTimeout is idempotent: calling it twice yields the same timer
state as calling it once, it never makes the callback run, calling it
on an un-fired timer already cancelled is a no-op, and calling it after
the timer fired leaves the observable callback behaviour unchanged (the
callback ran once and will not run again). -/
theorem claim9_cancel_idempotent (w : TimerWorld) :
    stopWaiting (stopWaiting w) = stopWaiting w ∧
    (stopWaiting w).fires = w.fires ∧
    fireTimer (stopWaiting w) = stopWaiting w ∧
    (fireTimer (stopWaiting (fireTimer w))).fires = (fireTimer w).fires := by
  refine ⟨rfl, rfl, ?_, ?_⟩
  · simp [fireTimer, stopWaiting, clearTimeout]
  · rcases w with ⟨c, f⟩
    by_cases hc : c <;> by_cases hf : f = 0 <;>
      simp [fireTimer, stopWaiting, clearTimeout, hc, hf]

/-- Claim C10 is violated by the frozen code (code bug): the onerror
handler that would carry a falsy error into onComplete is never
attached — the executor throws at the line before — so no failure
notification, falsy or otherwise, can ever be delivered; the promise is
rejected with the ReferenceError from the moment the call returns and
is never resolved, with undefined or with anything else, in any
reachable state. -/
theorem claim10_no_falsy_resolution (req : Request) (ticks : Nat) :
    (runValid req ticks).promise = PromiseState.rejected fileReaderRefError ∧
    ∀ v, (runValid req ticks).promise ≠ PromiseState.resolved v := by
  refine ⟨runValid_promise req ticks, ?_⟩
  intro v h
  rw [runValid_promise req ticks] at h
  simp at h

end ReliableFR
